import Mathlib

/-!
Verification development for the `media_parser` plugin (`src/parser.py`).

This file gives a shallow embedding of the plugin's core subsystems —
the retrying HTTP fetch layer (`_make_request`, `download_media`), the
bounded on-disk cache (`_check_cache_size` and the admission pattern
around `download_media`), the gallery / video resolution packaging
(`parse_images`, `parse_video`), the reply dispatch of
`on_handle_context`, the background delivery loop
(`_process_pending_tasks` together with `send_to_channel`), and the
configuration validation (`_validate_config`) — and proves or refutes
the specification's claims about them.

Conventions of the embedding:
* machine time, file sizes and timestamps are `Nat`;
* network attempt outcomes are an oracle `Nat → Attempt` giving, for
  each attempt index, what `self.session.request` does on that attempt;
* Python exceptions are modelled with `Except`: a function that can
  propagate an exception to its caller returns `Except String α`, and a
  `try/except` is a `match` on that value;
* Python dict/attribute truthiness for optional strings is modelled
  with `Option` (`none` = missing or empty).
-/

namespace MediaParser

/-- Media kind requested from `download_media` (`media_type` argument,
`"video"` or `"image"` in the source). -/
inductive MediaKind
  | video
  | image
  deriving DecidableEq, Repr

/-- A `Reply` object as constructed by the plugin: either a text reply
or a media (image/video) reply carrying the cached file's name
(`reply.filename` in the source). -/
inductive Reply
  | text (s : String)
  | media (kind : MediaKind) (filename : String)
  deriving DecidableEq, Repr

/-- One file of the cache directory, with the metadata the plugin reads
back from filesystem stat calls: `os.path.getsize` and
`os.path.getctime`. -/
structure CacheFile where
  path : String
  size : Nat
  ctime : Nat
  deriving DecidableEq, Repr

/-- `self.video_extensions` (source lines 37-43): content-type →
extension whitelist for videos. -/
def video_extensions : List (String × String) :=
  [("video/mp4", ".mp4"),
   ("video/x-flv", ".flv"),
   ("video/quicktime", ".mov"),
   ("video/x-ms-wmv", ".wmv"),
   ("video/x-msvideo", ".avi")]

/-- `self.image_extensions` (source lines 45-51): content-type →
extension whitelist for images. -/
def image_extensions : List (String × String) :=
  [("image/jpeg", ".jpg"),
   ("image/png", ".png"),
   ("image/gif", ".gif"),
   ("image/webp", ".webp"),
   ("image/bmp", ".bmp")]

/-- The whitelist consulted by `download_media` for a given media kind. -/
def extensionsFor : MediaKind → List (String × String)
  | .video => video_extensions
  | .image => image_extensions

/-- Outcome of one `self.session.request(...)` call inside
`_make_request`: an HTTP response with some status code, a
`requests.exceptions.RequestException` (connection error / timeout), or
some other exception. -/
inductive Attempt
  | response (status : Nat)
  | transportErr
  | otherErr
  deriving DecidableEq, Repr

/-- Observable trace of one `_make_request` call: `result` is
`some i` when the function returned the (status-200) response obtained
on attempt `i`, `none` when it returned `None`; `attempts` counts the
`session.request` calls made; `sleeps` lists the `time.sleep` delays
performed, in order. -/
structure ReqTrace where
  result : Option Nat
  attempts : Nat
  sleeps : List Nat
  deriving DecidableEq, Repr

/-- The `for i in range(max_retries + 1)` loop of `_make_request`
(source lines 435-476), unrolled with explicit fuel
(`fuel = max_retries + 1 - i`).  On a 200 response the response is
returned; on a non-200 response the loop just continues (no sleep); on
a `RequestException` the function returns `None` if `i == max_retries`
and otherwise sleeps `retry_delay` and retries; on any other exception
it returns `None` at once.  Falling off the loop returns `None`. -/
def _make_request_loop (att : Nat → Attempt) (max_retries retry_delay : Nat) :
    Nat → Nat → ReqTrace
  | _, 0 => ⟨none, 0, []⟩
  | i, fuel + 1 =>
    match att i with
    | .response s =>
      if s = 200 then ⟨some i, 1, []⟩
      else
        let t := _make_request_loop att max_retries retry_delay (i + 1) fuel
        ⟨t.result, t.attempts + 1, t.sleeps⟩
    | .transportErr =>
      if i = max_retries then ⟨none, 1, []⟩
      else
        let t := _make_request_loop att max_retries retry_delay (i + 1) fuel
        ⟨t.result, t.attempts + 1, retry_delay :: t.sleeps⟩
    | .otherErr => ⟨none, 1, []⟩

/-- `_make_request` (source lines 429-476): runs the retry loop from
attempt index 0. -/
def _make_request (att : Nat → Attempt) (max_retries retry_delay : Nat) : ReqTrace :=
  _make_request_loop att max_retries retry_delay 0 (max_retries + 1)

/-- Python's `str.lower()` as applied to a content-type header
(`response.headers.get('content-type', '').lower()`), character by
character. -/
def pyLower (s : String) : String := String.mk (s.data.map Char.toLower)

/-- Result of `download_media`: a downloaded file (named
`{timestamp}_{hash}{ext}`), or `None, None` because no response could
be obtained, or `None, None` because the declared content type is not
whitelisted for the requested kind.  The source collapses the last two
to the same return value but reaches them through distinct branches
(lines 483-485 versus 493-498); the embedding keeps the branches
apart. -/
inductive DlOutcome
  | ok (filename : String)
  | noResponse
  | unsupported (content_type : String)
  deriving DecidableEq, Repr

/-- Observable trace of one `download_media` call: its outcome, the
total number of HTTP attempts issued, and the file (name, byte size)
written into the cache directory, if any. -/
structure DlTrace where
  outcome : DlOutcome
  attempts : Nat
  written : Option (String × Nat)
  deriving DecidableEq, Repr

/-- `download_media` (source lines 478-536).  `header_ct` is the
response's `content-type` header (`none` = header absent), `timestamp`
is `int(time.time())`, `url_hash` is Python's `hash(url)`, `bytes` the
size of the streamed body.  The content-type check, extension choice,
file naming and the write are translated branch for branch; the
streamed chunk loop is abstracted to its total byte count. -/
def download_media (media_type : MediaKind) (max_retries retry_delay : Nat)
    (att : Nat → Attempt) (header_ct : Option String)
    (timestamp : Nat) (url_hash : Int) (bytes : Nat) : DlTrace :=
  let t := _make_request att max_retries retry_delay
  match t.result with
  | none => ⟨.noResponse, t.attempts, none⟩
  | some _ =>
    let content_type := pyLower (header_ct.getD "")
    if media_type = .video ∧ (video_extensions.lookup content_type).isNone then
      ⟨.unsupported content_type, t.attempts, none⟩
    else if media_type = .image ∧ (image_extensions.lookup content_type).isNone then
      ⟨.unsupported content_type, t.attempts, none⟩
    else
      let extension :=
        match media_type with
        | .video => (video_extensions.lookup content_type).getD ".mp4"
        | .image => (image_extensions.lookup content_type).getD ".jpg"
      let filename := toString timestamp ++ "_" ++ toString url_hash ++ extension
      ⟨.ok filename, t.attempts, some (filename, bytes)⟩

/-- Total size in bytes of a cache directory listing (the
`total_size` accumulator of `_check_cache_size`). -/
def sumSizes : List CacheFile → Nat
  | [] => 0
  | f :: rest => f.size + sumSizes rest

/-- Stable insertion of a file into a list sorted by creation time;
ties keep the earlier element first, matching Python's stable
`list.sort(key=lambda x: x[2])`. -/
def insertByCtime (f : CacheFile) : List CacheFile → List CacheFile
  | [] => [f]
  | g :: rest =>
    if g.ctime ≤ f.ctime then g :: insertByCtime f rest
    else f :: g :: rest

/-- `files.sort(key=lambda x: x[2])` (source line 607): stable sort of
the directory listing by creation time, oldest first. -/
def sortByCtime : List CacheFile → List CacheFile
  | [] => []
  | f :: rest => insertByCtime f (sortByCtime rest)

/-- The `while total_size > max_size and files:` eviction loop of
`_check_cache_size` (source lines 610-617), on the ctime-sorted
listing.  Returns (files remaining on disk, files removed in removal
order).  Deletions are modelled as succeeding, matching the claim's
scope (the source logs and skips a failed delete). -/
def evict_loop (max_size : Nat) : List CacheFile → Nat → List CacheFile × List CacheFile
  | [], _ => ([], [])
  | f :: rest, total =>
    if max_size < total then
      let p := evict_loop max_size rest (total - f.size)
      (p.1, f :: p.2)
    else (f :: rest, [])

/-- `_check_cache_size` (source lines 586-622): list the cache
directory, sum the sizes, and if the total strictly exceeds
`max_size_mb * 1024 * 1024`, delete oldest-by-ctime files until it no
longer does.  Returns (remaining files, removed files in order). -/
def _check_cache_size (max_size : Nat) (files : List CacheFile) :
    List CacheFile × List CacheFile :=
  let total := sumSizes files
  if max_size < total then evict_loop max_size (sortByCtime files) total
  else (files, [])

/-- One admission as performed by `parse_video` / `parse_images`
(source lines 286-287 and 399-400): run the pre-admission size check,
then write the new file.  The new file is written after the pass and is
never a candidate for that pass's eviction. -/
def admit_new (max_size : Nat) (files : List CacheFile) (nf : CacheFile) : List CacheFile :=
  (_check_cache_size max_size files).1 ++ [nf]

/-- The `data` payload of a successful video resolution
(`video_data` in `parse_video`); `none` models a missing or falsy
(empty) field, matching Python truthiness tests like
`if video_data.get("title")`. -/
structure VideoData where
  title : Option String
  author : Option String
  deriving DecidableEq, Repr

/-- The `data` payload of a successful gallery resolution
(`image_data` in `parse_images`): optional author / title / text info
(`(msg, time)` pair) and the list of image URLs. -/
structure ImageData where
  author : Option String
  title : Option String
  text_info : Option (String × String)
  images : List String
  deriving DecidableEq, Repr

/-- A parse operation's return value: `parse_images` returns either a
single `Reply` (its error paths) or a list of replies; `parse_video`
always returns a list.  `on_handle_context` distinguishes the two with
`isinstance(replies, list)`. -/
inductive ParseResult
  | single (r : Reply)
  | multi (rs : List Reply)
  deriving DecidableEq, Repr

/-- View of a `ParseResult` as the list of replies it carries. -/
def result_list : ParseResult → List Reply
  | .single r => [r]
  | .multi rs => rs

/-- The gallery description lines built by `parse_images`
(source lines 372-389): author, then title, then the text-info pair,
each included only when present/truthy. -/
def gallery_desc (d : ImageData) : List String :=
  (match d.author with
   | some a => ["👤 作者：" ++ a]
   | none => []) ++
  (match d.title with
   | some t => ["🖼️ 标题：" ++ t]
   | none => []) ++
  (match d.text_info with
   | some (m, tm) => ["📝 信息：" ++ m, "🕒 时间：" ++ tm]
   | none => [])

/-- The per-image download-and-package loop of `parse_images`
(source lines 398-416).  `n` is `len(images)`, `i` the 1-based
`enumerate` index, and `dl i` the outcome of `download_media` for the
image at index `i` (`some filename` on success, `none` when the
download failed and the item is skipped). -/
def gallery_items (n : Nat) (dl : Nat → Option String) : Nat → List String → List Reply
  | _, [] => []
  | i, _ :: rest =>
    (match dl i with
     | some fn =>
       [Reply.text ("📸 图片 " ++ toString i ++ "/" ++ toString n),
        Reply.media .image fn]
     | none => []) ++ gallery_items n dl (i + 1) rest

/-- Outcome of the upstream gallery-resolver request as observed by
`parse_images`: no response from `_make_request`, or a JSON body with
its `code`, optional `msg` and `data`. -/
inductive GApiOutcome
  | noResponse
  | body (code : Nat) (msg : Option String) (d : ImageData)
  deriving Repr

/-- `parse_images` (source lines 341-427) from the point the resolver
response is known: error paths return a single text reply; on success
it packages the description text, the per-image caption/media pairs for
the successful downloads, and the trailing completion summary that
interpolates `len(images)` — the upstream-declared count. -/
def parse_images (api : GApiOutcome) (dl : Nat → Option String) : ParseResult :=
  match api with
  | .noResponse => .single (.text "API无响应")
  | .body code msg d =>
    if code ≠ 200 then .single (.text (msg.getD "图集解析失败"))
    else if d.images = [] then .single (.text "未找到图片")
    else
      let parts := gallery_desc d
      let descReplies :=
        if parts = [] then []
        else [Reply.text (String.intercalate "\n" parts)]
      .multi (descReplies ++ gallery_items d.images.length dl 1 d.images ++
        [Reply.text ("图集发送完成，共 " ++ toString d.images.length ++ " 张图片")])

/-- The filenames of the media replies of a reply sequence, in order. -/
def mediaFiles : List Reply → List String
  | [] => []
  | .media _ fn :: rest => fn :: mediaFiles rest
  | .text _ :: rest => mediaFiles rest

/-- The video description lines built by `parse_video`
(source lines 300-318): title, then author, then the text-info pair of
the top-level response. -/
def video_desc (vd : VideoData) (text_info : Option (String × String)) : List String :=
  (match vd.title with
   | some t => ["🎬 标题：" ++ t]
   | none => []) ++
  (match vd.author with
   | some a => ["👤 作者：" ++ a]
   | none => []) ++
  (match text_info with
   | some (m, tm) => ["📝 信息：" ++ m, "🕒 时间：" ++ tm]
   | none => [])

/-- The user-facing message of `parse_video`'s oversized branch
(source line 298). -/
def oversized_video_msg (max_video_size_mb : Nat) : String :=
  "抱歉，该视频文件大于" ++ toString max_video_size_mb ++
    "MB，暂时无法处理。请尝试分享较小的视频文件。"

/-- Observable outcome of the tail of `parse_video`: the replies it
returns, whether it closed the downloaded file's read handle, and the
cache directory contents afterwards. -/
structure VideoTrace where
  replies : List Reply
  file_closed : Bool
  cache_after : List CacheFile
  deriving DecidableEq, Repr

/-- `parse_video` (source lines 286-335) from the point a usable video
URL was found: run `_check_cache_size`, download (`dl` is the
downloaded cache file, `none` = download failed), then the size gate of
lines 292-298 — a file strictly larger than
`max_video_size_mb * 1024 * 1024` bytes yields a single text reply and
`file_obj.close()`; the cache file itself is not deleted.  Otherwise
the description text (if any) and the video reply are returned. -/
def parse_video_after_resolve (cache_max max_video_size_mb : Nat)
    (cache : List CacheFile) (dl : Option CacheFile)
    (vd : VideoData) (text_info : Option (String × String)) : VideoTrace :=
  let kept := (_check_cache_size cache_max cache).1
  match dl with
  | none => ⟨[.text "视频下载失败"], false, kept⟩
  | some vf =>
    let cache2 := kept ++ [vf]
    if max_video_size_mb * 1024 * 1024 < vf.size then
      ⟨[.text (oversized_video_msg max_video_size_mb)], true, cache2⟩
    else
      let parts := video_desc vd text_info
      ⟨(if parts = [] then []
        else [Reply.text (String.intercalate "\n" parts)]) ++
        [Reply.media .video vf.path], false, cache2⟩

/-- What `send_to_channel` observably did (all of these are normal
returns; see `send_to_channel`). -/
inductive ChannelResult
  | sent
  | sendFailed (msg : String)
  | fileMissing
  | reopenFailed
  | noChannel
  deriving DecidableEq, Repr

/-- Whether a reply is of type `IMAGE` or `VIDEO`
(`reply.type in [ReplyType.IMAGE, ReplyType.VIDEO]`). -/
def reply_is_media : Reply → Bool
  | .media _ _ => true
  | .text _ => false

/-- `send_to_channel` (source lines 737-787).  `channel` is the result
of `create_channel("wx")` (`none` = falsy), the `Except` value of the
sink models whether `channel.send` raises, and `file_exists` /
`reopen_ok` model the media-file checks of lines 752-764.  Crucially,
the whole body sits in a `try/except Exception` (lines 739 and
784-787) that logs and falls through, so every path — including a
raising `channel.send` and the `raise RuntimeError` of line 782 —
results in a normal return: the returned `Except` is always `.ok`. -/
def send_to_channel (channel : Option (Reply → Except String Unit))
    (file_exists reopen_ok : Bool) (reply : Reply) : Except String ChannelResult :=
  let body : Except String ChannelResult :=
    match channel with
    | some sink =>
      if reply_is_media reply ∧ file_exists = false then .ok .fileMissing
      else if reply_is_media reply ∧ reopen_ok = false then .ok .reopenFailed
      else
        match sink reply with
        | .ok _ => .ok .sent
        | .error e => .ok (.sendFailed e)
    | none => .error "未找到微信channel"
  match body with
  | .ok r => .ok r
  | .error _ => .ok .noChannel

/-- One entry of `self.processing_tasks`: the delivery plan of one
gallery (`replies`, `receiver`, current `index`, `next_send_time`). -/
structure Task where
  replies : List Reply
  receiver : String
  index : Nat
  next_send_time : Nat
  deriving DecidableEq, Repr

/-- One `send_to_channel` invocation performed by the background loop:
which reply went to which receiver. -/
structure SendEvent where
  reply : Reply
  receiver : String
  deriving DecidableEq, Repr

/-- The per-task body of `_process_pending_tasks` (source lines
686-710) at wall time `t`: if the task is due, send the reply at the
current index; when the send call returns normally the index advances
and the task is either marked finished (removed) or rescheduled at
`t + delay_seconds`; when the send call raises, the task is marked
removed without advancing.  Returns (updated task, marked-for-removal,
send events). -/
def process_task (delay_seconds : Nat)
    (sendfn : Reply → Except String ChannelResult) (t : Nat) (task : Task) :
    Task × Bool × List SendEvent :=
  if task.next_send_time ≤ t then
    let reply := task.replies.getD task.index (.text "")
    match sendfn reply with
    | .ok _ =>
      if task.replies.length ≤ task.index + 1 then
        ({ task with index := task.index + 1 }, true, [⟨reply, task.receiver⟩])
      else
        ({ task with index := task.index + 1, next_send_time := t + delay_seconds },
         false, [⟨reply, task.receiver⟩])
    | .error _ => (task, true, [⟨reply, task.receiver⟩])
  else (task, false, [])

/-- One full scan of `self.processing_tasks` by the background loop
(the `with self.tasks_lock:` block of `_process_pending_tasks`,
source lines 685-717): every due task is processed and the tasks marked
for removal are popped.  Returns the surviving tasks and all send
events of the pass. -/
def process_pass (delay_seconds : Nat)
    (sendfn : Reply → Except String ChannelResult) (t : Nat) :
    List (String × Task) → List (String × Task) × List SendEvent
  | [] => ([], [])
  | (id, task) :: rest =>
    let r := process_task delay_seconds sendfn t task
    let rr := process_pass delay_seconds sendfn t rest
    ((if r.2.1 then [] else [(id, r.1)]) ++ rr.1, r.2.2 ++ rr.2)

/-- Reply dispatch of `on_handle_context` (source lines 236-246) once a
parse result is available: for a non-empty list, the first reply
becomes the event context's reply and every further reply is sent
synchronously, in the handler's own thread, via `send_to_channel`; an
empty list falls back to a failure text; a bare `Reply` becomes the
context reply.  Nothing in `parser.py` ever inserts into
`self.processing_tasks`, so the dispatch enqueues no task for the
background loop — `enqueued_tasks` is structurally empty. -/
structure Dispatch where
  context_reply : Reply
  sync_sends : List Reply
  enqueued_tasks : List (String × Task)
  deriving DecidableEq, Repr

/-- See `Dispatch`. -/
def on_handle_dispatch : ParseResult → Dispatch
  | .multi (r :: rest) => ⟨r, rest, []⟩
  | .multi [] => ⟨.text "解析失败", [], []⟩
  | .single r => ⟨r, [], []⟩

/-- A JSON scalar as Python sees it: `int`, `float` or `str`
(`isinstance(x, (int, float))` matches the first two, `isinstance(x,
int)` only the first). -/
inductive PyVal
  | int (n : Int)
  | float (q : Rat)
  | str (s : String)
  deriving DecidableEq, Repr

/-- `isinstance(v, (int, float)) and v > 0`. -/
def numPos : PyVal → Bool
  | .int n => decide (0 < n)
  | .float q => decide (0 < q)
  | .str _ => false

/-- `isinstance(v, (int, float)) and v >= 0`. -/
def numNonneg : PyVal → Bool
  | .int n => decide (0 ≤ n)
  | .float q => decide (0 ≤ q)
  | .str _ => false

/-- `isinstance(v, int) and v > 0`. -/
def intPos : PyVal → Bool
  | .int n => decide (0 < n)
  | .float _ => false
  | .str _ => false

/-- `isinstance(v, int) and v >= 0`. -/
def intNonneg : PyVal → Bool
  | .int n => decide (0 ≤ n)
  | .float _ => false
  | .str _ => false

/-- The recognized configuration surface (flattened): the two resolver
endpoints and every scalar option of `cache`, `download`, `batch` and
`max_video_size_mb`. -/
structure Config where
  api_video : PyVal
  api_image : PyVal
  cache_max_size_mb : PyVal
  cache_max_age_hours : PyVal
  cache_chunk_size : PyVal
  download_timeout : PyVal
  download_max_retries : PyVal
  download_retry_delay : PyVal
  download_max_workers : PyVal
  batch_image_limit : PyVal
  batch_delay_seconds : PyVal
  max_video_size_mb : PyVal
  deriving DecidableEq, Repr

/-- `self.default_config` (source lines 68-95). -/
def default_config : Config where
  api_video := .str "https://www.hhlqilongzhu.cn/api/sp_jx/sp.php"
  api_image := .str "https://www.hhlqilongzhu.cn/api/sp_jx/tuji.php"
  cache_max_size_mb := .int 500
  cache_max_age_hours := .int 24
  cache_chunk_size := .int 8192
  download_timeout := .int 30
  download_max_retries := .int 3
  download_retry_delay := .int 1
  download_max_workers := .int 5
  batch_image_limit := .int 10
  batch_delay_seconds := .int 2
  max_video_size_mb := .int 20

/-- The conjunction of the eight `assert` statements of
`_validate_config` (source lines 121-128).  Only these eight options
are checked; `api_endpoints.*`, `cache.chunk_size` and
`download.max_workers` are never validated. -/
def config_checks_pass (c : Config) : Bool :=
  numPos c.cache_max_size_mb &&
  numPos c.cache_max_age_hours &&
  numPos c.download_timeout &&
  intNonneg c.download_max_retries &&
  numNonneg c.download_retry_delay &&
  intPos c.batch_image_limit &&
  numNonneg c.batch_delay_seconds &&
  numPos c.max_video_size_mb

/-- `_validate_config` (source lines 118-132): if any of the eight
asserts fails, the `except AssertionError` handler replaces the whole
config with `self.default_config`; otherwise the config is kept
unchanged. -/
def _validate_config (c : Config) : Config :=
  if config_checks_pass c then c else default_config

/-! Concrete scenario inputs used by the closed theorems below. -/

/-- A parsed two-image gallery reply sequence, as `parse_images`
produces it: description, caption/image pairs, completion summary. -/
def c1_gallery : List Reply :=
  [.text "👤 作者：某人",
   .text "📸 图片 1/2", .media .image "1700000000_11.jpg",
   .text "📸 图片 2/2", .media .image "1700000001_22.jpg",
   .text "图集发送完成，共 2 张图片"]

/-- An external sink (`channel.send`) that raises on every call. -/
def c2_sink : Reply → Except String Unit := fun _ => .error "sink rejected"

/-- `send_to_channel` over the always-raising sink, with the media file
present and reopenable. -/
def c2_send : Reply → Except String ChannelResult :=
  send_to_channel (some c2_sink) true true

/-- A two-item delivery plan due immediately. -/
def c2_task : Task := ⟨[.text "第一项", .media .image "a.jpg"], "room1", 0, 0⟩

/-- First background-loop pass over the plan, at time 0 with
`delay_seconds = 2`. -/
def c2_pass1 : List (String × Task) × List SendEvent :=
  process_pass 2 c2_send 0 [("t1", c2_task)]

/-- Second pass, at time 2 (the rescheduled send time). -/
def c2_pass2 : List (String × Task) × List SendEvent :=
  process_pass 2 c2_send 2 c2_pass1.1

/-- A 15-byte cache (three files) used to exercise an eviction pass
against a 10-byte limit. -/
def c3_files : List CacheFile :=
  [⟨"cache/1_a.bin", 6, 1⟩, ⟨"cache/2_b.bin", 5, 2⟩, ⟨"cache/3_c.bin", 4, 3⟩]

/-- A fresh artifact whose size alone exceeds the 10-byte limit. -/
def c3_new : CacheFile := ⟨"cache/4_d.bin", 100, 4⟩

/-- An attempt oracle where every attempt raises a transport error. -/
def c4_att_fail : Nat → Attempt := fun _ => .transportErr

/-- An attempt oracle failing with transport errors on attempts 0 and 1
and succeeding on attempt 2. -/
def c4_att_mixed : Nat → Attempt := fun k => if k < 2 then .transportErr else .response 200

/-- An attempt oracle that succeeds immediately. -/
def c5_att_ok : Nat → Attempt := fun _ => .response 200

/-- An upstream gallery answer declaring three image URLs. -/
def c6_data : ImageData := ⟨some "作者甲", none, none, ["a", "b", "c"]⟩

/-- A download oracle where fetching the second image fails and the
other two succeed. -/
def c6_dl : Nat → Option String :=
  fun i => if i = 2 then none else some ("170000000" ++ toString i ++ "_7.jpg")

/-- 0.5 MB files admitted sequentially in the spec's cache scenario. -/
def c7_f1 : CacheFile := ⟨"cache/1700000000_a.jpg", 524288, 1700000000⟩

/-- Second 0.5 MB file of the scenario. -/
def c7_f2 : CacheFile := ⟨"cache/1700000010_b.jpg", 524288, 1700000010⟩

/-- Third 0.5 MB file of the scenario. -/
def c7_f3 : CacheFile := ⟨"cache/1700000020_c.jpg", 524288, 1700000020⟩

/-- `max_size_mb = 1` in bytes. -/
def c7_max : Nat := 1 * 1024 * 1024

/-- Cache contents after the first admission. -/
def c7_s1 : List CacheFile := admit_new c7_max [] c7_f1

/-- Cache contents after the second admission. -/
def c7_s2 : List CacheFile := admit_new c7_max c7_s1 c7_f2

/-- Cache contents after the third admission. -/
def c7_s3 : List CacheFile := admit_new c7_max c7_s2 c7_f3

/-- A downloaded 30 MB video file, over the default 20 MB cap. -/
def c8_vf : CacheFile := ⟨"cache/1700000000_9.mp4", 31457280, 1700000000⟩

/-- The tail of `parse_video` run on the oversized download with an
empty cache and default limits (500 MB cache cap, 20 MB video cap). -/
def c8_trace : VideoTrace :=
  parse_video_after_resolve 524288000 20 [] (some c8_vf) ⟨none, none⟩ none

/-- A config whose (recognized but never-validated) `cache.chunk_size`
holds a wrong-typed value, alongside a non-default valid
`cache.max_size_mb`. -/
def c9_bad : Config :=
  { default_config with
      cache_chunk_size := .str "eight-k"
      cache_max_size_mb := .int 999 }

/-- A config that fails one of the eight validated asserts
(`download.timeout` must be `> 0`). -/
def c9_fail : Config := { default_config with download_timeout := .int 0 }

/-- An attempt oracle whose every attempt yields an HTTP 404 response
(no exception raised). -/
def c10_status : Nat → Nat := fun _ => 404

/-! Helper lemmas. -/

/-- When every attempt the loop can reach raises a transport error, the
retry loop consumes all its fuel, sleeping before each retry but not
after the last failure. -/
theorem mkreq_loop_all_transport (att : Nat → Attempt) (max_retries retry_delay : Nat)
    (h : ∀ k, k ≤ max_retries → att k = .transportErr) :
    ∀ fuel i, i + fuel = max_retries + 1 →
      _make_request_loop att max_retries retry_delay i fuel =
        ⟨none, fuel, List.replicate (fuel - 1) retry_delay⟩ := by
  intro fuel
  induction fuel with
  | zero => intro i _; rfl
  | succ f ih =>
    intro i hi
    have ha : att i = .transportErr := h i (by omega)
    by_cases him : i = max_retries
    · subst him
      have hf : f = 0 := by omega
      subst hf
      simp [_make_request_loop, ha]
    · have hrec := ih (i + 1) (by omega)
      simp only [_make_request_loop, ha]
      rw [if_neg him, hrec]
      obtain ⟨g, rfl⟩ : ∃ g, f = g + 1 := ⟨f - 1, by omega⟩
      simp [List.replicate_succ]

/-- When attempts before index `j` raise transport errors and attempt
`j ≤ max_retries` yields a 200 response, the loop returns that response
after `j - i + 1` attempts. -/
theorem mkreq_loop_success (att : Nat → Attempt) (max_retries retry_delay j : Nat)
    (hj : j ≤ max_retries) (h200 : att j = .response 200)
    (hpre : ∀ k, k < j → att k = .transportErr) :
    ∀ fuel i, i + fuel = max_retries + 1 → i ≤ j →
      _make_request_loop att max_retries retry_delay i fuel =
        ⟨some j, j - i + 1, List.replicate (j - i) retry_delay⟩ := by
  intro fuel
  induction fuel with
  | zero => intro i hi hij; exact ((by omega : False)).elim
  | succ f ih =>
    intro i hi hij
    by_cases hij' : i = j
    · subst hij'
      simp [_make_request_loop, h200]
    · have ha : att i = .transportErr := hpre i (by omega)
      have him : i ≠ max_retries := by omega
      have hrec := ih (i + 1) (by omega) (by omega)
      have h1 : j - i = (j - (i + 1)) + 1 := by omega
      simp only [_make_request_loop, ha]
      rw [if_neg him, hrec, h1]
      simp [List.replicate_succ]

/-- When every reachable attempt returns a non-200 response, the loop
consumes all its fuel without sleeping and falls through to `None`. -/
theorem mkreq_loop_non200 (status : Nat → Nat) (max_retries retry_delay : Nat)
    (h : ∀ k, k ≤ max_retries → status k ≠ 200) :
    ∀ fuel i, i + fuel = max_retries + 1 →
      _make_request_loop (fun k => .response (status k)) max_retries retry_delay i fuel =
        ⟨none, fuel, []⟩ := by
  intro fuel
  induction fuel with
  | zero => intro i _; rfl
  | succ f ih =>
    intro i hi
    have hs : status i ≠ 200 := h i (by omega)
    have hrec := ih (i + 1) (by omega)
    simp only [_make_request_loop]
    rw [if_neg hs, hrec]

/-- Inserting a file adds its size to the total. -/
theorem sumSizes_insertByCtime (f : CacheFile) (l : List CacheFile) :
    sumSizes (insertByCtime f l) = f.size + sumSizes l := by
  induction l with
  | nil => rfl
  | cons g rest ih =>
    by_cases h : g.ctime ≤ f.ctime
    · simp [insertByCtime, h, sumSizes, ih]; omega
    · simp [insertByCtime, h, sumSizes]

/-- Sorting by creation time preserves the total size. -/
theorem sumSizes_sortByCtime (l : List CacheFile) :
    sumSizes (sortByCtime l) = sumSizes l := by
  induction l with
  | nil => rfl
  | cons f rest ih => simp [sortByCtime, sumSizes_insertByCtime, ih, sumSizes]

/-- Membership after a stable insert. -/
theorem mem_insertByCtime (a f : CacheFile) (l : List CacheFile) :
    a ∈ insertByCtime f l ↔ a = f ∨ a ∈ l := by
  induction l with
  | nil => simp [insertByCtime]
  | cons g rest ih =>
    by_cases h : g.ctime ≤ f.ctime
    · simp [insertByCtime, h, ih]
      tauto
    · simp [insertByCtime, h]

/-- Sorting by creation time preserves membership. -/
theorem mem_sortByCtime (a : CacheFile) (l : List CacheFile) :
    a ∈ sortByCtime l ↔ a ∈ l := by
  induction l with
  | nil => simp [sortByCtime]
  | cons f rest ih => simp [sortByCtime, mem_insertByCtime, ih]

/-- The eviction loop splits its input into the removed files followed
by the kept files, and leaves the kept total within the limit. -/
theorem evict_loop_spec (max_size : Nat) :
    ∀ (l : List CacheFile) (total : Nat), total = sumSizes l →
      (evict_loop max_size l total).2 ++ (evict_loop max_size l total).1 = l ∧
      sumSizes (evict_loop max_size l total).1 ≤ max_size := by
  intro l
  induction l with
  | nil => intro total ht; simp [evict_loop, sumSizes]
  | cons f rest ih =>
    intro total ht
    by_cases hlt : max_size < total
    · have ht' : total - f.size = sumSizes rest := by
        simp [sumSizes] at ht; omega
      obtain ⟨h1, h2⟩ := ih (total - f.size) ht'
      simp only [evict_loop, if_pos hlt]
      exact ⟨by simpa using h1, h2⟩
    · simp only [evict_loop, if_neg hlt]
      refine ⟨rfl, ?_⟩
      simp at hlt
      omega

/-- `mediaFiles` distributes over append. -/
theorem mediaFiles_append (xs ys : List Reply) :
    mediaFiles (xs ++ ys) = mediaFiles xs ++ mediaFiles ys := by
  induction xs with
  | nil => rfl
  | cons r rest ih => cases r <;> simp [mediaFiles, ih]

/-- The media files packaged by the gallery loop are exactly the
download successes, in index order. -/
theorem gallery_items_media (n : Nat) (dl : Nat → Option String) :
    ∀ (l : List String) (i : Nat),
      mediaFiles (gallery_items n dl i l) = (List.range' i l.length).filterMap dl := by
  intro l
  induction l with
  | nil => intro i; rfl
  | cons a rest ih =>
    intro i
    simp only [gallery_items, List.length_cons, List.range'_succ, List.filterMap_cons]
    rw [mediaFiles_append]
    cases hdl : dl i <;> simp [mediaFiles, hdl, ih]

/-- `send_to_channel` never propagates an exception to its caller: the
outer `try/except Exception` of its body converts every raise into a
logged normal return. -/
theorem send_to_channel_never_raises (channel : Option (Reply → Except String Unit))
    (file_exists reopen_ok : Bool) (reply : Reply) :
    ∃ r, send_to_channel channel file_exists reopen_ok reply = .ok r := by
  unfold send_to_channel
  cases channel with
  | none => exact ⟨.noChannel, rfl⟩
  | some sink =>
    by_cases h1 : reply_is_media reply ∧ file_exists = false
    · exact ⟨.fileMissing, by simp [h1]⟩
    · by_cases h2 : reply_is_media reply ∧ reopen_ok = false
      · obtain ⟨hm, hr⟩ := h2
        have hf : file_exists ≠ false := fun hff => h1 ⟨hm, hff⟩
        exact ⟨.reopenFailed, by simp [hm, hr, hf]⟩
      · cases hs : sink reply with
        | ok v => exact ⟨.sent, by simp [h1, h2, hs]⟩
        | error e => exact ⟨.sendFailed e, by simp [h1, h2, hs]⟩

/-! Claim theorems. -/

/-- Claim C3: after the pre-admission size-check pass completes, the
total size of the files left in the cache directory is at most the
configured maximum; when the pass evicts, the removed files are a
prefix of the creation-time-sorted listing (oldest first) and are all
pre-existing files; the file about to be written is admitted only after
the pass and is never removed by it, even if it alone exceeds the
limit. -/
theorem C3_pre_admission_size_bound (max_size : Nat) (files : List CacheFile)
    (nf : CacheFile) :
    sumSizes (_check_cache_size max_size files).1 ≤ max_size ∧
    ((_check_cache_size max_size files).2 = [] ∨
      sortByCtime files =
        (_check_cache_size max_size files).2 ++ (_check_cache_size max_size files).1) ∧
    (∀ f, f ∈ (_check_cache_size max_size files).2 → f ∈ files) ∧
    nf ∈ admit_new max_size files nf := by
  by_cases h : max_size < sumSizes files
  · have htot : sumSizes files = sumSizes (sortByCtime files) :=
      (sumSizes_sortByCtime files).symm
    obtain ⟨h1, h2⟩ := evict_loop_spec max_size (sortByCtime files) (sumSizes files) htot
    have hc : _check_cache_size max_size files =
        evict_loop max_size (sortByCtime files) (sumSizes files) := by
      simp [_check_cache_size, h]
    refine ⟨?_, ?_, ?_, ?_⟩
    · rw [hc]; exact h2
    · right; rw [hc]; exact h1.symm
    · intro f hf
      rw [hc] at hf
      have hmem : f ∈ sortByCtime files := by
        rw [← h1]; exact List.mem_append_left _ hf
      exact (mem_sortByCtime f files).1 hmem
    · simp [admit_new]
  · have hc : _check_cache_size max_size files = (files, []) := by
      simp [_check_cache_size, h]
    refine ⟨?_, ?_, ?_, ?_⟩
    · rw [hc]; exact Nat.le_of_not_lt h
    · left; rw [hc]
    · intro f hf; rw [hc] at hf; simp at hf
    · simp [admit_new]

/-- Witness for C3 at a concrete eviction pass: three files totaling
15 bytes against a 10-byte limit evict exactly the oldest file, and the
new (oversized) artifact is still admitted afterwards. -/
theorem C3_pre_admission_size_bound_witness :
    sumSizes (_check_cache_size 10 c3_files).1 ≤ 10 ∧
    sortByCtime c3_files =
      (_check_cache_size 10 c3_files).2 ++ (_check_cache_size 10 c3_files).1 ∧
    (⟨"cache/1_a.bin", 6, 1⟩ : CacheFile) ∈ c3_files ∧
    c3_new ∈ admit_new 10 c3_files c3_new :=
  ⟨(C3_pre_admission_size_bound 10 c3_files c3_new).1,
   ((C3_pre_admission_size_bound 10 c3_files c3_new).2.1).resolve_left (by decide),
   (C3_pre_admission_size_bound 10 c3_files c3_new).2.2.1 ⟨"cache/1_a.bin", 6, 1⟩
     (by decide),
   (C3_pre_admission_size_bound 10 c3_files c3_new).2.2.2⟩

/-- Claim C4: when every attempt raises a transport error,
`_make_request` makes exactly `max_retries` additional attempts after
the first (`max_retries + 1` in total), sleeping `retry_delay` between
consecutive attempts, and returns failure (`None`); when the attempts
up to some index `j` fail transiently and attempt `j` returns a 200
response, that response is returned and no further attempt is made. -/
theorem C4_retry_policy (max_retries retry_delay : Nat) (att : Nat → Attempt) :
    ((∀ k, k ≤ max_retries → att k = .transportErr) →
      (_make_request att max_retries retry_delay).result = none ∧
      (_make_request att max_retries retry_delay).attempts = max_retries + 1 ∧
      (_make_request att max_retries retry_delay).sleeps =
        List.replicate max_retries retry_delay) ∧
    (∀ j, j ≤ max_retries → (∀ k, k < j → att k = .transportErr) →
      att j = .response 200 →
      (_make_request att max_retries retry_delay).result = some j ∧
      (_make_request att max_retries retry_delay).attempts = j + 1) := by
  constructor
  · intro h
    have hl := mkreq_loop_all_transport att max_retries retry_delay h
      (max_retries + 1) 0 (by omega)
    unfold _make_request
    rw [hl]
    exact ⟨rfl, rfl, rfl⟩
  · intro j hj hpre h200
    have hl := mkreq_loop_success att max_retries retry_delay j hj h200 hpre
      (max_retries + 1) 0 (by omega) (by omega)
    unfold _make_request
    rw [hl]
    exact ⟨rfl, rfl⟩

/-- Witness for C4: with `max_retries = 3`, an always-failing oracle
yields 4 attempts, 3 sleeps and `None`; an oracle succeeding on attempt
2 yields that success after exactly 3 attempts. -/
theorem C4_retry_policy_witness :
    ((_make_request c4_att_fail 3 1).result = none ∧
     (_make_request c4_att_fail 3 1).attempts = 4 ∧
     (_make_request c4_att_fail 3 1).sleeps = List.replicate 3 1) ∧
    ((_make_request c4_att_mixed 3 1).result = some 2 ∧
     (_make_request c4_att_mixed 3 1).attempts = 3) :=
  ⟨(C4_retry_policy 3 1 c4_att_fail).1 (fun _ _ => rfl),
   (C4_retry_policy 3 1 c4_att_mixed).2 2 (by decide)
     (fun k hk => by simp [c4_att_mixed, hk]) (by decide)⟩

/-- Claim C5: a fetched response whose declared content type is not in
the whitelist for the requested kind makes `download_media` fail with
the unsupported-type outcome, issue no request attempt beyond the one
that produced the response, and write nothing to the cache. -/
theorem C5_unsupported_content_type (media_type : MediaKind)
    (max_retries retry_delay : Nat) (att : Nat → Attempt)
    (header_ct : Option String) (timestamp : Nat) (url_hash : Int) (bytes : Nat)
    (j : Nat) (hj : j ≤ max_retries)
    (hpre : ∀ k, k < j → att k = .transportErr) (h200 : att j = .response 200)
    (hct : ((extensionsFor media_type).lookup
      (pyLower (header_ct.getD ""))).isNone = true) :
    (download_media media_type max_retries retry_delay att header_ct
        timestamp url_hash bytes).outcome =
      .unsupported (pyLower (header_ct.getD "")) ∧
    (download_media media_type max_retries retry_delay att header_ct
        timestamp url_hash bytes).attempts = j + 1 ∧
    (download_media media_type max_retries retry_delay att header_ct
        timestamp url_hash bytes).written = none := by
  have hreq : _make_request att max_retries retry_delay =
      ⟨some j, j + 1, List.replicate j retry_delay⟩ := by
    have hl := mkreq_loop_success att max_retries retry_delay j hj h200 hpre
      (max_retries + 1) 0 (by omega) (by omega)
    unfold _make_request
    simpa using hl
  unfold download_media
  rw [hreq]
  cases media_type with
  | video =>
    simp only [extensionsFor] at hct
    simp [hct]
  | image =>
    simp only [extensionsFor] at hct
    simp [hct]

/-- Witness for C5: a first-attempt 200 response declaring
`text/html` for a requested video is rejected as unsupported after a
single attempt, with nothing written. -/
theorem C5_unsupported_content_type_witness :
    (download_media .video 3 1 c5_att_ok (some "text/html")
        1700000000 (-5) 1024).outcome =
      .unsupported (pyLower ((some "text/html").getD "")) ∧
    (download_media .video 3 1 c5_att_ok (some "text/html")
        1700000000 (-5) 1024).attempts = 1 ∧
    (download_media .video 3 1 c5_att_ok (some "text/html")
        1700000000 (-5) 1024).written = none :=
  C5_unsupported_content_type .video 3 1 c5_att_ok (some "text/html")
    1700000000 (-5) 1024 0 (by decide)
    (fun k hk => absurd hk (Nat.not_lt_zero k)) rfl (by decide)

/-- Claim C10: when every attempt returns an HTTP response with a
non-200 status (no exception raised), `_make_request` still retries —
`max_retries + 1` attempts in total with no inter-attempt sleep — and
then returns `None` rather than the non-200 response. -/
theorem C10_non200_retry (max_retries retry_delay : Nat) (status : Nat → Nat)
    (h : ∀ k, k ≤ max_retries → status k ≠ 200) :
    _make_request (fun k => .response (status k)) max_retries retry_delay =
      ⟨none, max_retries + 1, []⟩ := by
  unfold _make_request
  exact mkreq_loop_non200 status max_retries retry_delay h (max_retries + 1) 0 (by omega)

/-- Witness for C10: with `max_retries = 2`, three straight 404
responses produce 3 attempts, no sleeps and `None`. -/
theorem C10_non200_retry_witness :
    _make_request (fun k => .response (c10_status k)) 2 1 = ⟨none, 3, []⟩ :=
  C10_non200_retry 2 1 c10_status (fun _ _ => (by decide : (404 : Nat) ≠ 200))

/-- Claim C6: for a gallery whose upstream answer declares a non-empty
image URL list, the packaged result is the multi-reply sequence whose
media items are exactly the successfully downloaded images (failures
are skipped without aborting), and whose last element is the
completion-summary text stating the upstream-declared count
`len(images)` — independent of how many downloads succeeded. -/
theorem C6_gallery_packaging (d : ImageData) (dl : Nat → Option String)
    (h : d.images ≠ []) :
    parse_images (.body 200 none d) dl =
      .multi (result_list (parse_images (.body 200 none d) dl)) ∧
    (result_list (parse_images (.body 200 none d) dl)).getLast? =
      some (.text ("图集发送完成，共 " ++ toString d.images.length ++ " 张图片")) ∧
    mediaFiles (result_list (parse_images (.body 200 none d) dl)) =
      (List.range' 1 d.images.length).filterMap dl := by
  have hp : parse_images (.body 200 none d) dl =
      .multi ((if gallery_desc d = [] then []
          else [Reply.text (String.intercalate "\n" (gallery_desc d))]) ++
        gallery_items d.images.length dl 1 d.images ++
        [Reply.text ("图集发送完成，共 " ++ toString d.images.length ++ " 张图片")]) := by
    simp [parse_images, h]
  refine ⟨?_, ?_, ?_⟩
  · rw [hp]; rfl
  · rw [hp]
    simp only [result_list]
    exact List.getLast?_concat _
  · rw [hp]
    simp only [result_list]
    rw [mediaFiles_append, mediaFiles_append, gallery_items_media]
    have hdesc : mediaFiles (if gallery_desc d = [] then []
        else [Reply.text (String.intercalate "\n" (gallery_desc d))]) = [] := by
      split
      · rfl
      · rfl
    simp [hdesc, mediaFiles]

/-- Witness for C6: three declared images with the second download
failing yield media for images 1 and 3 only, while the summary still
says 3. -/
theorem C6_gallery_packaging_witness :
    parse_images (.body 200 none c6_data) c6_dl =
      .multi (result_list (parse_images (.body 200 none c6_data) c6_dl)) ∧
    (result_list (parse_images (.body 200 none c6_data) c6_dl)).getLast? =
      some (.text ("图集发送完成，共 " ++ toString c6_data.images.length ++ " 张图片")) ∧
    mediaFiles (result_list (parse_images (.body 200 none c6_data) c6_dl)) =
      (List.range' 1 c6_data.images.length).filterMap c6_dl :=
  C6_gallery_packaging c6_data c6_dl (by decide)

/-- Claim C7 counterexample: with `max_size_mb = 1`, after three
sequential 0.5 MB admissions the third admission's pre-check evicts
nothing — the two pre-existing files total exactly the maximum, and the
pass only fires on a strictly greater total — leaving three files
totaling 1.5 MB, not the claimed two files within 1 MB. -/
theorem C7_counterexample :
    (_check_cache_size c7_max c7_s2).2 = [] ∧
    c7_s3.length = 3 ∧
    sumSizes c7_s3 = 1572864 ∧
    c7_max < sumSizes c7_s3 := by decide

/-- Claim C7 as amended: the third admission's pre-check evicts nothing
(1 MB does not strictly exceed the 1 MB limit) and leaves three files
totaling 1.5 MB; the first pre-check that sees a total strictly above
the limit — the fourth admission's — evicts the oldest file, leaving
two files totaling at most 1 MB. -/
theorem C7_amended_eviction_on_fourth :
    (_check_cache_size c7_max c7_s2).2 = [] ∧
    c7_s3 = [c7_f1, c7_f2, c7_f3] ∧
    _check_cache_size c7_max c7_s3 = ([c7_f2, c7_f3], [c7_f1]) ∧
    sumSizes (_check_cache_size c7_max c7_s3).1 ≤ c7_max := by decide

/-- Claim C8 counterexample: an oversized video download yields only
the user-facing text reply, but the downloaded artifact is not
discarded — the file stays in the cache directory. -/
theorem C8_counterexample :
    c8_trace.replies = [.text (oversized_video_msg 20)] ∧
    c8_vf ∈ c8_trace.cache_after ∧
    c8_trace.cache_after = [c8_vf] := by decide

/-- Claim C8 as amended: when the downloaded video exceeds
`max_video_size_mb`, `parse_video` returns only the user-facing text
message (the video is not forwarded) and closes the file handle; the
downloaded file itself is not deleted and remains in the cache
directory for later eviction passes. -/
theorem C8_amended_oversized_video (cache_max max_mb : Nat)
    (cache : List CacheFile) (vf : CacheFile) (vd : VideoData)
    (ti : Option (String × String)) (h : max_mb * 1024 * 1024 < vf.size) :
    (parse_video_after_resolve cache_max max_mb cache (some vf) vd ti).replies =
      [.text (oversized_video_msg max_mb)] ∧
    (parse_video_after_resolve cache_max max_mb cache (some vf) vd ti).file_closed = true ∧
    vf ∈ (parse_video_after_resolve cache_max max_mb cache (some vf) vd ti).cache_after := by
  simp [parse_video_after_resolve, h]

/-- Witness for the amended C8 at the concrete 30 MB download against
the default 20 MB cap. -/
theorem C8_amended_oversized_video_witness :
    (parse_video_after_resolve 524288000 20 [] (some c8_vf) ⟨none, none⟩ none).replies =
      [.text (oversized_video_msg 20)] ∧
    (parse_video_after_resolve 524288000 20 [] (some c8_vf) ⟨none, none⟩
        none).file_closed = true ∧
    c8_vf ∈ (parse_video_after_resolve 524288000 20 [] (some c8_vf) ⟨none, none⟩
        none).cache_after :=
  C8_amended_oversized_video 524288000 20 [] c8_vf ⟨none, none⟩ none (by decide)

/-- Claim C9 counterexample: a configuration carrying a wrong-typed
value for the recognized option `cache.chunk_size` passes
`_validate_config` unchanged — nothing reverts to defaults, because the
eight asserts never look at `chunk_size`. -/
theorem C9_counterexample :
    _validate_config c9_bad = c9_bad ∧
    c9_bad ≠ default_config ∧
    c9_bad.cache_chunk_size = .str "eight-k" ∧
    default_config.cache_chunk_size = .int 8192 := by decide

/-- Claim C9 as amended: validation is all-or-nothing over the eight
options it actually checks (`cache.max_size_mb`, `cache.max_age_hours`,
`download.timeout`, `download.max_retries`, `download.retry_delay`,
`batch.image_limit`, `batch.delay_seconds`, `max_video_size_mb`): if
any of those is invalid the whole configuration reverts to defaults,
and otherwise it is kept unchanged — invalid values for the remaining
recognized options (`api_endpoints.*`, `cache.chunk_size`,
`download.max_workers`) are never detected. -/
theorem C9_amended_partial_validation (c : Config) :
    (config_checks_pass c = false → _validate_config c = default_config) ∧
    (config_checks_pass c = true → _validate_config c = c) := by
  constructor <;> intro h <;> simp [_validate_config, h]

/-- Witness for the amended C9: a zero `download.timeout` reverts the
whole config; the default config is kept unchanged. -/
theorem C9_amended_partial_validation_witness :
    _validate_config c9_fail = default_config ∧
    _validate_config default_config = default_config :=
  ⟨(C9_amended_partial_validation c9_fail).1 (by decide),
   (C9_amended_partial_validation default_config).2 (by decide)⟩

/-- Claim C1 (code evaluated at the failing input): for a parsed
six-reply gallery, `on_handle_context`'s dispatch hands the first reply
to the event context, sends the other five synchronously in the
handler's own thread via `send_to_channel`, and enqueues nothing into
`processing_tasks` — the background scheduler loop is never given the
plan the claim (and the spec) describe. -/
theorem C1_gallery_sent_synchronously :
    (on_handle_dispatch (.multi c1_gallery)).enqueued_tasks = [] ∧
    (on_handle_dispatch (.multi c1_gallery)).sync_sends = c1_gallery.tail ∧
    (on_handle_dispatch (.multi c1_gallery)).sync_sends.length = 5 ∧
    (on_handle_dispatch (.multi c1_gallery)).context_reply = .text "👤 作者：某人" := by
  decide

/-- Claim C2 (code evaluated at the failing input): with a sink that
raises on every `channel.send`, `send_to_channel` still returns
normally (it catches the exception internally), so the background loop
never observes the failure: the index advances past the failed first
item, the second (later-index) item is sent on the next pass, and the
plan is removed as completed — not removed at the first failure as the
claim states. -/
theorem C2_failed_send_keeps_sending :
    c2_sink (.text "第一项") = .error "sink rejected" ∧
    c2_send (.text "第一项") = .ok (.sendFailed "sink rejected") ∧
    c2_pass1.2 = [⟨.text "第一项", "room1"⟩] ∧
    c2_pass1.1 = [("t1", ⟨[.text "第一项", .media .image "a.jpg"], "room1", 1, 2⟩)] ∧
    c2_pass2.2 = [⟨.media .image "a.jpg", "room1"⟩] ∧
    c2_pass2.1 = [] := by
  refine ⟨rfl, rfl, ?_, ?_, ?_, ?_⟩ <;> decide

end MediaParser
